import Mathlib

/-!
Shallow embedding of the dynamic risk-scoring and anomaly/correlation engine of the
security-dashboard repository.

Sources embedded:
  * backend/routers/dashboard.py        (_calculate_dynamic_lga_risk)
  * backend/services/ml_engine.py       (detect_anomalies, analyze_trends,
                                         predict_threats, _detect_spatial_clusters)
  * backend/services/security_intelligence_engine.py
                                        (FIRMSecurityAnalyzer._cluster_fires,
                                         FIRMSecurityAnalyzer._classify_fire_cluster)

Modelling conventions:
  * Python floats are modelled as rationals (ℚ); all the constants of the source
    (0.15, 0.2, 30, ...) are exact decimal fractions, so the arithmetic is exact.
  * The haversine distance (dashboard._haversine, ml_engine._haversine,
    geography.haversine_distance) is transcendental (sin/cos/asin/sqrt), so it is
    not representable as a computable rational function.  Every embedded operation
    therefore takes the distance function as an explicit parameter (`DistFn`),
    exactly at the call sites where the source calls its haversine helper.  All
    theorems quantify over this parameter; concrete witnesses instantiate it with
    simple computable stand-ins.
  * Python dicts with optional keys are modelled as structures with Option fields;
    `d.get(k, v)` becomes `field.getD v` and `d.get(k)` becomes the Option value.
  * `datetime.now()` reads are modelled by an explicit `now : String` parameter,
    threaded to exactly the places where the source stores the reading.
  * Free-text `description` fields built with f-string float formatting are elided
    from the output records (float repr is not representable here); all other
    output fields are kept.
-/

/-- Coordinates-based distance function, standing for the haversine helpers
(4 arguments: lat1 lon1 lat2 lon2, result in km). -/
abbrev DistFn := ℚ → ℚ → ℚ → ℚ → ℚ

/-- A FIRMS hotspot record (dict with keys latitude, longitude, brightness, frp). -/
structure Hotspot where
  latitude : Option ℚ
  longitude : Option ℚ
  brightness : Option ℚ
  frp : Option ℚ
deriving DecidableEq

/-- An intel report record (dict with keys title, description, severity, category). -/
structure Report where
  title : Option String
  description : Option String
  severity : Option String
  category : Option String
deriving DecidableEq

/-- A region (LGA) record from the KEBBI_LGAS registry: name, lat, lon, risk. -/
structure Lga where
  name : String
  lat : ℚ
  lon : ℚ
  risk : Option String
deriving DecidableEq

/-- Python str.lower() at the character-list level (the region names and report
texts handled by the source are ASCII). -/
def lowerChars (s : String) : List Char := s.data.map Char.toLower

/-- Python substring test `needle in hay` at the character-list level. -/
def substrOf (needle hay : List Char) : Bool :=
  hay.tails.any (fun t => needle.isPrefixOf t)

/-- statistics.mean over rationals.  Python raises StatisticsError on an empty
list; here division by zero yields 0, and every use site is on nonempty lists. -/
def meanQ (l : List ℚ) : ℚ := l.sum / (l.length : ℚ)

/-- Python `max(l, default = d)`. -/
def maxD (l : List ℚ) (d : ℚ) : ℚ :=
  match l with
  | [] => d
  | h :: t => t.foldl max h

/-- Round-half-to-even to an integer, the tie-breaking rule of Python round(). -/
def roundHalfEven (q : ℚ) : ℤ :=
  let f := ⌊q⌋
  let r := q - (f : ℚ)
  if r < 1/2 then f
  else if 1/2 < r then f + 1
  else if Even f then f else f + 1

/-- Python `round(q, ndigits)` modelled over exact rationals. -/
def pythonRound (q : ℚ) (ndigits : ℕ) : ℚ :=
  (roundHalfEven (q * 10 ^ ndigits) : ℚ) / 10 ^ ndigits

/-- Greedy seed-based clustering shared by ml_engine._detect_spatial_clusters and
FIRMSecurityAnalyzer._cluster_fires: take the first unused point as a seed, absorb
every later unused point that the predicate accepts relative to the seed, repeat
on the leftovers.  The fuel argument (instantiated with the list length) bounds
the recursion exactly like the outer `for i, ...` loop visits each index once. -/
def greedyGo (p : α → α → Bool) : ℕ → List α → List (List α)
  | 0, _ => []
  | _, [] => []
  | fuel + 1, h :: rest =>
    (h :: rest.filter (fun g => p h g)) ::
      greedyGo p fuel (rest.filter (fun g => !(p h g)))

/-- Greedy clustering of a whole list (fuel = length never runs out). -/
def greedyClusters (p : α → α → Bool) (l : List α) : List (List α) :=
  greedyGo p l.length l

namespace Dashboard

/-- border_lgas set literal of _calculate_dynamic_lga_risk. -/
def border_lgas : List String := ["Dandi", "Augie", "Argungu", "Bagudo"]

/-- southern set literal of _calculate_dynamic_lga_risk. -/
def southern : List String :=
  ["Fakai", "Sakaba", "Wasagu/Danko", "Zuru", "Shanga", "Koko/Besse", "Yauri"]

/-- Distance from the LGA center to a hotspot:
_haversine(lga.lat, lga.lon, h.get("latitude", 0), h.get("longitude", 0)). -/
def dist_to (dist : DistFn) (lga : Lga) (h : Hotspot) : ℚ :=
  dist lga.lat lga.lon (h.latitude.getD 0) (h.longitude.getD 0)

/-- One iteration of the fire-proximity loop:
`if dist < 30: score += max(0, (30 - dist) / 30) * 0.15`. -/
def fire_contrib (dist : DistFn) (lga : Lga) (h : Hotspot) : ℚ :=
  let d := dist_to dist lga h
  if d < 30 then max 0 ((30 - d) / 30) * (3/20) else 0

/-- `nearby_fires = sum(1 for h in hotspots if _haversine(...) < 30)`. -/
def nearby_fires (dist : DistFn) (lga : Lga) (hotspots : List Hotspot) : ℕ :=
  hotspots.countP (fun h => dist_to dist lga h < 30)

/-- The substring test of the intel loop: `lga_lower in text` where
`text = (r.get("title", "") + " " + r.get("description", "")).lower()`. -/
def mentions (lga : Lga) (r : Report) : Bool :=
  substrOf (lowerChars lga.name) (lowerChars (r.title.getD "" ++ " " ++ r.description.getD ""))

/-- The severity ladder of the intel loop: critical +0.2, high +0.1, else +0.05. -/
def sev_bonus (severity : Option String) : ℚ :=
  if severity = some "critical" then 1/5
  else if severity = some "high" then 1/10
  else 1/20

/-- One iteration of the intel-report loop. -/
def report_contrib (lga : Lga) (r : Report) : ℚ :=
  if mentions lga r then sev_bonus r.severity else 0

/-- The geographic-risk step: southern corridor +0.25, else border +0.15, else 0. -/
def geo_adjust (name : String) : ℚ :=
  if southern.contains name then 1/4
  else if border_lgas.contains name then 3/20
  else 0

/-- The accumulated score of _calculate_dynamic_lga_risk before the final clamp:
fire-proximity loop, cluster-density bonus, intel loop, geographic adjustment. -/
def raw_score (dist : DistFn) (lga : Lga) (hotspots : List Hotspot)
    (reports : List Report) : ℚ :=
  let score1 := hotspots.foldl (fun s h => s + fire_contrib dist lga h) 0
  let score2 := if 3 ≤ nearby_fires dist lga hotspots then score1 + 1/5 else score1
  let score3 := reports.foldl (fun s r => s + report_contrib lga r) score2
  score3 + geo_adjust lga.name

/-- _calculate_dynamic_lga_risk(lga, hotspots, reports) -> (label, score). -/
def calculate_dynamic_lga_risk (dist : DistFn) (lga : Lga) (hotspots : List Hotspot)
    (reports : List Report) : String × ℚ :=
  let score := min (raw_score dist lga hotspots reports) 1
  if 3/5 ≤ score then ("critical", score)
  else if 2/5 ≤ score then ("high", score)
  else if 1/5 ≤ score then ("medium", score)
  else ("low", score)

end Dashboard

namespace MLEngine

/-- A cluster summary dict of _detect_spatial_clusters: size, center_lat, center_lon. -/
structure ClusterInfo where
  size : ℕ
  center_lat : ℚ
  center_lon : ℚ
deriving DecidableEq

/-- Hotspot-to-hotspot distance of _detect_spatial_clusters:
_haversine(h1.get("latitude", 0), h1.get("longitude", 0), h2..., h2...). -/
def hotspot_dist (dist : DistFn) (h1 h2 : Hotspot) : ℚ :=
  dist (h1.latitude.getD 0) (h1.longitude.getD 0) (h2.latitude.getD 0) (h2.longitude.getD 0)

/-- _detect_spatial_clusters(hotspots, distance_threshold_km): greedy clustering
with strict absorption test `dist < distance_threshold_km`; only groups with at
least 2 members are reported, with their centroid. -/
def detect_spatial_clusters (dist : DistFn) (hotspots : List Hotspot)
    (distance_threshold_km : ℚ) : List ClusterInfo :=
  (greedyClusters (fun h1 h2 => hotspot_dist dist h1 h2 < distance_threshold_km) hotspots).filterMap
    (fun c =>
      if 2 ≤ c.length then
        some ⟨c.length, meanQ (c.map (fun h => h.latitude.getD 0)),
              meanQ (c.map (fun h => h.longitude.getD 0))⟩
      else none)

/-- One anomaly entry of detect_anomalies (free-text description elided). -/
structure AnomalyDetail where
  type : String
  severity : String
  score : ℚ
  center : Option (ℚ × ℚ)
  max_brightness : Option ℚ
deriving DecidableEq

/-- The return dict of detect_anomalies.  The empty-input branch returns a dict
without z_score and hotspot_count keys, hence the Option fields. -/
structure AnomalyReport where
  anomalies_detected : Bool
  count : ℕ
  details : List AnomalyDetail
  score : ℚ
  z_score : Option ℚ
  hotspot_count : Option ℕ
deriving DecidableEq

/-- z_score = (count - baseline_mean) / max(baseline_std, 0.1). -/
def z_of (count : ℕ) (baseline_mean baseline_std : ℚ) : ℚ :=
  ((count : ℚ) - baseline_mean) / max baseline_std (1/10)

/-- The frequency-spike entry, emitted only when z is strictly above 2.0. -/
def freq_details (z : ℚ) : List AnomalyDetail :=
  if 2 < z then
    [⟨"frequency_spike", if 3 < z then "critical" else "high", min (z / 5) 1, none, none⟩]
  else []

/-- The spatial-cluster entries: one per cluster of size at least 3. -/
def cluster_details (clusters : List ClusterInfo) : List AnomalyDetail :=
  (clusters.filter (fun c => 3 ≤ c.size)).map
    (fun c => ⟨"spatial_cluster", if 5 ≤ c.size then "high" else "medium",
               min ((c.size : ℚ) / 10) 1, some (c.center_lat, c.center_lon), none⟩)

/-- brightnesses = [h.get("brightness", 300) for h in hotspots if h.get("brightness")]:
the kept value is always the stored one, and Python truthiness drops 0 as well as
a missing key. -/
def truthy_brightnesses (hotspots : List Hotspot) : List ℚ :=
  hotspots.filterMap (fun h =>
    match h.brightness with
    | some b => if b = 0 then none else some b
    | none => none)

/-- The single aggregate brightness-anomaly entry (values above 400K). -/
def bright_details (brightness_anomalies : List ℚ) : List AnomalyDetail :=
  if brightness_anomalies.isEmpty then []
  else
    [⟨"brightness_anomaly", "high", min (maxD brightness_anomalies 0 / 600) 1,
      none, some (maxD brightness_anomalies 0)⟩]

/-- detect_anomalies(hotspots, baseline_mean = 5.0, baseline_std = 3.0). -/
def detect_anomalies (dist : DistFn) (hotspots : List Hotspot)
    (baseline_mean baseline_std : ℚ) : AnomalyReport :=
  if hotspots.isEmpty then ⟨false, 0, [], 0, none, none⟩
  else
    let z := z_of hotspots.length baseline_mean baseline_std
    let anomaly_details :=
      freq_details z ++ cluster_details (detect_spatial_clusters dist hotspots 15) ++
        bright_details ((truthy_brightnesses hotspots).filter (fun b => 400 < b))
    ⟨!anomaly_details.isEmpty, anomaly_details.length, anomaly_details,
     pythonRound (maxD (anomaly_details.map (fun a => a.score)) 0) 3,
     some (pythonRound z 2), some hotspots.length⟩

/-- An insertion-ordered string-keyed counter dict. -/
def dictGet (d : List (String × ℕ)) (k : String) (dflt : ℕ) : ℕ :=
  (Option.map (fun p => p.2) (d.find? (fun p => p.1 == k))).getD dflt

/-- counts[k] = counts.get(k, 0) + 1 with Python dict insertion-order semantics. -/
def dictBump (d : List (String × ℕ)) (k : String) : List (String × ℕ) :=
  if d.any (fun p => p.1 == k) then
    d.map (fun p => if p.1 == k then (p.1, p.2 + 1) else p)
  else d ++ [(k, 1)]

/-- Python max(d, key = d.get) over an insertion-ordered dict: first key with the
maximal count wins (updates only on a strictly greater count). -/
def dominant_key (d : List (String × ℕ)) : String :=
  match d with
  | [] => "none"
  | h :: t => (t.foldl (fun best p => if best.2 < p.2 then p else best) h).1

/-- _trend_recommendation(trend). -/
def trend_recommendation (trend : String) : String :=
  if trend = "escalating" then
    "ALERT: Threat level is escalating. Recommend increased surveillance, force repositioning to high-risk corridors, and enhanced border monitoring."
  else if trend = "elevated" then
    "CAUTION: Elevated threat activity detected. Maintain heightened alert posture and continue monitoring key indicators."
  else if trend = "moderate" then
    "ADVISORY: Moderate threat activity. Continue standard surveillance operations with attention to emerging patterns."
  else if trend = "stable" then
    "NORMAL: Threat environment is stable. Maintain routine operations and scheduled patrols."
  else "Continue monitoring."

/-- The return dict of analyze_trends.  The empty-input branch returns only
trend, direction and an empty details dict, hence the Option fields. -/
structure TrendReport where
  trend : String
  direction : String
  details : Option (List (String × ℕ))
  threat_ratio : Option ℚ
  total_reports : Option ℕ
  severity_breakdown : Option (List (String × ℕ))
  category_breakdown : Option (List (String × ℕ))
  dominant_category : Option String
  recommendation : Option String
deriving DecidableEq

/-- analyze_trends(reports) (the unused 168-hour window parameter is elided;
the hourly_distribution local is computed and never used in the source). -/
def analyze_trends (reports : List Report) : TrendReport :=
  if reports.isEmpty then ⟨"stable", "flat", some [], none, none, none, none, none, none⟩
  else
    let severity_counts :=
      reports.foldl (fun d r => dictBump d (r.severity.getD "low"))
        [("critical", 0), ("high", 0), ("medium", 0), ("low", 0)]
    let category_counts :=
      reports.foldl (fun d r => dictBump d (r.category.getD "general")) []
    let total := reports.length
    let threat_ratio :=
      ((dictGet severity_counts "critical" 0 * 4 + dictGet severity_counts "high" 0 * 3 : ℕ) : ℚ) /
        (max total 1 : ℕ)
    let trend :=
      if 2 < threat_ratio then "escalating"
      else if 1 < threat_ratio then "elevated"
      else if 1/2 < threat_ratio then "moderate"
      else "stable"
    let direction :=
      if 2 < threat_ratio then "up"
      else if 1 < threat_ratio then "up"
      else if 1/2 < threat_ratio then "stable"
      else "down"
    ⟨trend, direction, none, some (pythonRound threat_ratio 2), some total,
     some severity_counts, some category_counts,
     some (if category_counts.isEmpty then "none" else dominant_key category_counts),
     some (trend_recommendation trend)⟩

end MLEngine

namespace MLEngine

/-- risk_weights.get(key, dflt) with risk_weights =
{critical: 1.0, high: 0.75, medium: 0.5, low: 0.25}. -/
def risk_weights_get (key : String) (dflt : ℚ) : ℚ :=
  if key = "critical" then 1
  else if key = "high" then 3/4
  else if key = "medium" then 1/2
  else if key = "low" then 1/4
  else dflt

/-- base_risk = risk_weights.get(lga.get("risk", "low"), 0.25). -/
def base_risk (lga : Lga) : ℚ := risk_weights_get (lga.risk.getD "low") (1/4)

/-- The fire-proximity loop of predict_threats: running max of 1 - dist/30 over
hotspots within 30 km, skipped entirely when the hotspot list is falsy. -/
def fire_proximity_score (dist : DistFn) (lga : Lga) (hotspots : List Hotspot) : ℚ :=
  if hotspots.isEmpty then 0
  else
    hotspots.foldl
      (fun acc h =>
        let d := dist lga.lat lga.lon (h.latitude.getD 0) (h.longitude.getD 0)
        if d < 30 then max acc (1 - d / 30) else acc)
      0

/-- The mention test of predict_threats: lga name (lowercased) as a substring of
title + description (no separating space here, unlike the dashboard router). -/
def mentions_ml (lga : Lga) (r : Report) : Bool :=
  substrOf (lowerChars lga.name) (lowerChars (r.title.getD "" ++ r.description.getD ""))

/-- intel_score = min(lga_mentions / 5, 1.0), skipped when the report list is falsy. -/
def intel_score (lga : Lga) (intel_reports : List Report) : ℚ :=
  if intel_reports.isEmpty then 0
  else min (((intel_reports.countP (fun r => mentions_ml lga r)) : ℚ) / 5) 1

/-- border_lgas set literal of predict_threats. -/
def border_lgas : List String := ["Dandi", "Augie", "Argungu", "Bagudo"]

/-- southern_corridor set literal of predict_threats (4 names only). -/
def southern_corridor : List String := ["Fakai", "Sakaba", "Wasagu/Danko", "Zuru"]

/-- border_multiplier = 1.2 if lga.name in border_lgas else 1.0. -/
def border_multiplier (name : String) : ℚ :=
  if border_lgas.contains name then 6/5 else 1

/-- corridor_multiplier = 1.3 if lga.name in southern_corridor else 1.0. -/
def corridor_multiplier (name : String) : ℚ :=
  if southern_corridor.contains name then 13/10 else 1

/-- The composite threat score of predict_threats before the min(..., 1.0) clamp:
(base_risk*0.4 + fire_proximity*0.2 + intel_score*0.2 + 0.2) * border * corridor. -/
def composite_raw (dist : DistFn) (lga : Lga) (intel_reports : List Report)
    (hotspots : List Hotspot) : ℚ :=
  (base_risk lga * (2/5) + fire_proximity_score dist lga hotspots * (1/5) +
      intel_score lga intel_reports * (1/5) + 1/5) *
    border_multiplier lga.name * corridor_multiplier lga.name

/-- composite = min(composite, 1.0). -/
def composite (dist : DistFn) (lga : Lga) (intel_reports : List Report)
    (hotspots : List Hotspot) : ℚ :=
  min (composite_raw dist lga intel_reports hotspots) 1

/-- The predicted-level thresholds of predict_threats (strict comparisons). -/
def predicted_level (c : ℚ) : String :=
  if 3/4 < c then "critical"
  else if 11/20 < c then "high"
  else if 7/20 < c then "medium"
  else "low"

/-- One entry of the predictions list (per-LGA record of predict_threats). -/
structure PredictionRecord where
  lga : String
  lat : ℚ
  lon : ℚ
  current_risk : String
  predicted_risk : String
  composite_score : ℚ
  f_base_risk : ℚ
  f_fire_proximity : ℚ
  f_intel_correlation : ℚ
  f_border_factor : ℚ
  f_corridor_factor : ℚ
  risk_change : String
deriving DecidableEq

/-- The per-LGA body of the predict_threats loop. -/
def predict_lga (dist : DistFn) (intel_reports : List Report) (hotspots : List Hotspot)
    (lga : Lga) : PredictionRecord :=
  let br := base_risk lga
  let comp := composite dist lga intel_reports hotspots
  let predicted := predicted_level comp
  { lga := lga.name
    lat := lga.lat
    lon := lga.lon
    current_risk := lga.risk.getD "low"
    predicted_risk := predicted
    composite_score := pythonRound comp 3
    f_base_risk := pythonRound br 2
    f_fire_proximity := pythonRound (fire_proximity_score dist lga hotspots) 2
    f_intel_correlation := pythonRound (intel_score lga intel_reports) 2
    f_border_factor := border_multiplier lga.name
    f_corridor_factor := corridor_multiplier lga.name
    risk_change :=
      if br < risk_weights_get predicted 0 then "↑"
      else if risk_weights_get predicted 0 < br then "↓"
      else "→" }

/-- The return dict of predict_threats; the timestamp field stores the
datetime.now() reading, modelled by the explicit now parameter. -/
structure PredictionResult where
  predictions : List PredictionRecord
  timestamp : String
  highest_risk : Option PredictionRecord
  escalating_lgas : List PredictionRecord
  de_escalating_lgas : List PredictionRecord
  model : String
deriving DecidableEq

/-- predict_threats(lga_data, intel_reports, hotspots): per-LGA records sorted by
composite_score descending (Python list.sort is a stable sort, modelled by the
stable insertionSort). -/
def predict_threats (dist : DistFn) (lga_data : List Lga) (intel_reports : List Report)
    (hotspots : List Hotspot) (now : String) : PredictionResult :=
  let preds :=
    (lga_data.map (predict_lga dist intel_reports hotspots)).insertionSort
      (fun a b => b.composite_score ≤ a.composite_score)
  { predictions := preds
    timestamp := now
    highest_risk := preds.head?
    escalating_lgas := preds.filter (fun p => p.risk_change = "↑")
    de_escalating_lgas := preds.filter (fun p => p.risk_change = "↓")
    model := "CITADEL-THREAT-PRED-v2" }

end MLEngine

namespace SecurityEngine

/-- _cluster_fires(fires, radius_km): greedy clustering with non-strict absorption
test `dist <= radius_km`, distance taken between the raw record coordinates
(fire.get("latitude") has no default here — the distance function is therefore
abstracted over whole records). -/
def cluster_fires (distF : Hotspot → Hotspot → ℚ) (fires : List Hotspot)
    (radius_km : ℚ) : List (List Hotspot) :=
  greedyClusters (fun f g => distF f g ≤ radius_km) fires

/-- The SecurityIndicator dataclass (description text elided; the timestamp field
stores the datetime.now() reading). -/
structure SecurityIndicator where
  indicator_type : String
  source : String
  location_lat : ℚ
  location_lon : ℚ
  timestamp : String
  confidence : String
  severity : String
  recommended_action : String
deriving DecidableEq

/-- _classify_fire_cluster(cluster, avg_brightness, fire_count, avg_frp, lga):
ordered if/elif signature rules; the final return statement is unconditional, so
the Optional result is always some indicator. -/
def classify_fire_cluster (cluster : List Hotspot) (avg_brightness : ℚ)
    (fire_count : ℕ) (avg_frp : ℚ) (lga : Option String) (now : String) :
    Option SecurityIndicator :=
  let center_lat := meanQ (cluster.map (fun f => f.latitude.getD 0))
  let center_lon := meanQ (cluster.map (fun f => f.longitude.getD 0))
  let res : String × String × String × String :=
    if 3 ≤ fire_count ∧ 400 ≤ avg_brightness ∧ avg_brightness ≤ 600 then
      ("suspected_illegal_mining", "medium", "high",
       "Deploy mining enforcement team to verify illegal mining activity. Check for unauthorized pits and equipment.")
    else if 500 < avg_brightness ∧ fire_count ≤ 3 then
      ("suspected_arson_evidence_burning", "high", "critical",
       "URGENT: Dispatch patrol to verify if settlement/farm under attack. Alert nearby communities.")
    else if 2 ≤ fire_count ∧ 300 ≤ avg_brightness ∧ avg_brightness < 400 then
      ("suspected_bandit_camp", "medium", "high",
       "Surveillance recommended. Check for associated vehicle tracks or temporary structures. DO NOT approach without backup.")
    else
      ("unknown_fire", "low", "medium", "Investigate source of fires")
  some
    { indicator_type := res.1
      source := "NASA_FIRMS"
      location_lat := center_lat
      location_lon := center_lon
      timestamp := now
      confidence := res.2.1
      severity := res.2.2.1
      recommended_action := res.2.2.2 }

end SecurityEngine

/-- Projection of a prediction result onto every field except the timestamp. -/
def MLEngine.PredictionResult.strip (r : MLEngine.PredictionResult) :
    List MLEngine.PredictionRecord × Option MLEngine.PredictionRecord ×
      List MLEngine.PredictionRecord × List MLEngine.PredictionRecord × String :=
  (r.predictions, r.highest_risk, r.escalating_lgas, r.de_escalating_lgas, r.model)

/-- Projection of a security indicator onto every field except the timestamp. -/
def SecurityEngine.SecurityIndicator.strip (i : SecurityEngine.SecurityIndicator) :
    String × String × ℚ × ℚ × String × String × String :=
  (i.indicator_type, i.source, i.location_lat, i.location_lon, i.confidence,
   i.severity, i.recommended_action)

/-- Concrete stand-in distance function: everything at distance zero. -/
def zeroDist : DistFn := fun _ _ _ _ => 0

/-- Concrete stand-in distance function: taxicab metric on coordinates.  Like the
haversine of the source it is symmetric and vanishes on identical points. -/
def taxiDist : DistFn := fun lat1 lon1 lat2 lon2 => |lat2 - lat1| + |lon2 - lon1|

/-- A synthetic region at the origin, mentioned by the test reports. -/
def originLga : Lga := ⟨"Testville", 0, 0, some "low"⟩

/-- The Shanga region record (KEBBI_LGAS coordinates). -/
def shangaLga : Lga := ⟨"Shanga", 112167/10000, 45833/10000, some "high"⟩

/-- A synthetic record named after the corridor LGA Zuru. -/
def zuruTest : Lga := ⟨"Zuru", 12, 4, some "low"⟩

/-- A synthetic record named after the non-corridor LGA Jega, with the same
coordinates and configured risk as zuruTest. -/
def jegaTest : Lga := ⟨"Jega", 12, 4, some "low"⟩

/-- A well-formed hotspot. -/
def h00 : Hotspot := ⟨some 12, some 4, none, none⟩

/-- A malformed hotspot record: latitude and longitude keys both absent. -/
def hMissing : Hotspot := ⟨none, none, none, none⟩

/-- Eleven identical well-formed hotspots. -/
def hs11 : List Hotspot := List.replicate 11 h00

/-- A low-severity report mentioning Testville. -/
def reportLowTestville : Report :=
  ⟨some "Unrest in Testville area", some "patrol sighting", some "low", none⟩

lemma foldl_add_eq_sum (f : α → ℚ) (l : List α) (a : ℚ) :
    l.foldl (fun s x => s + f x) a = a + (l.map f).sum := by
  induction l generalizing a with
  | nil => simp
  | cons h t ih => simp [ih, add_assoc]

lemma sum_map_nonneg (f : α → ℚ) (hf : ∀ x, 0 ≤ f x) (l : List α) :
    0 ≤ (l.map f).sum :=
  List.sum_nonneg (fun x hx => by rcases List.mem_map.mp hx with ⟨a, -, rfl⟩; exact hf a)

lemma Dashboard.fire_contrib_nonneg (dist : DistFn) (lga : Lga) (h : Hotspot) :
    0 ≤ Dashboard.fire_contrib dist lga h := by
  simp only [Dashboard.fire_contrib]
  split_ifs
  · exact mul_nonneg (le_max_left 0 _) (by norm_num)
  · exact le_refl 0

lemma Dashboard.sev_bonus_nonneg (severity : Option String) :
    0 ≤ Dashboard.sev_bonus severity := by
  simp only [Dashboard.sev_bonus]
  split_ifs <;> norm_num

lemma Dashboard.report_contrib_nonneg (lga : Lga) (r : Report) :
    0 ≤ Dashboard.report_contrib lga r := by
  simp only [Dashboard.report_contrib]
  split_ifs
  · exact Dashboard.sev_bonus_nonneg r.severity
  · exact le_refl 0

lemma Dashboard.geo_adjust_nonneg (name : String) : 0 ≤ Dashboard.geo_adjust name := by
  simp only [Dashboard.geo_adjust]
  split_ifs <;> norm_num

lemma Dashboard.geo_adjust_le_one (name : String) : Dashboard.geo_adjust name ≤ 1 := by
  simp only [Dashboard.geo_adjust]
  split_ifs <;> norm_num

lemma Dashboard.raw_score_eq (dist : DistFn) (lga : Lga) (hs : List Hotspot)
    (rs : List Report) :
    Dashboard.raw_score dist lga hs rs =
      (hs.map (Dashboard.fire_contrib dist lga)).sum +
        (if 3 ≤ Dashboard.nearby_fires dist lga hs then (1:ℚ)/5 else 0) +
        (rs.map (Dashboard.report_contrib lga)).sum + Dashboard.geo_adjust lga.name := by
  simp only [Dashboard.raw_score, foldl_add_eq_sum]
  split_ifs <;> ring

lemma Dashboard.snd_calc (dist : DistFn) (lga : Lga) (hs : List Hotspot)
    (rs : List Report) :
    (Dashboard.calculate_dynamic_lga_risk dist lga hs rs).2 =
      min (Dashboard.raw_score dist lga hs rs) 1 := by
  simp only [Dashboard.calculate_dynamic_lga_risk]
  split_ifs <;> rfl

lemma Dashboard.raw_score_nonneg (dist : DistFn) (lga : Lga) (hs : List Hotspot)
    (rs : List Report) : 0 ≤ Dashboard.raw_score dist lga hs rs := by
  rw [Dashboard.raw_score_eq]
  have h1 := sum_map_nonneg _ (Dashboard.fire_contrib_nonneg dist lga) hs
  have h2 := sum_map_nonneg _ (Dashboard.report_contrib_nonneg lga) rs
  have h3 := Dashboard.geo_adjust_nonneg lga.name
  have h4 : (0:ℚ) ≤ if 3 ≤ Dashboard.nearby_fires dist lga hs then (1:ℚ)/5 else 0 := by
    split_ifs <;> norm_num
  linarith

/-- Claim C1: for every region, hotspot list and report list, the score returned
by _calculate_dynamic_lga_risk lies in [0, 1]: every contribution is nonnegative
and the accumulated sum is clamped to 1.0 before the label is derived. -/
theorem c1_score_bounded (dist : DistFn) (lga : Lga) (hotspots : List Hotspot)
    (reports : List Report) :
    0 ≤ (Dashboard.calculate_dynamic_lga_risk dist lga hotspots reports).2 ∧
      (Dashboard.calculate_dynamic_lga_risk dist lga hotspots reports).2 ≤ 1 := by
  rw [Dashboard.snd_calc]
  exact ⟨le_min (Dashboard.raw_score_nonneg dist lga hotspots reports) zero_le_one,
    min_le_right _ _⟩

/-- Claim C8: on the empty batch every scoring function returns its well-defined
zero result: detect_anomalies on no hotspots reports no anomalies with score 0.0,
analyze_trends on no reports is the stable/flat report with empty details, and
_calculate_dynamic_lga_risk with no hotspots and no reports returns exactly the
static geographic adjustment of the region. -/
theorem c8_empty_batch :
    (∀ (dist : DistFn) (baseline_mean baseline_std : ℚ),
        MLEngine.detect_anomalies dist [] baseline_mean baseline_std =
          ⟨false, 0, [], 0, none, none⟩) ∧
      ((MLEngine.analyze_trends []).trend = "stable" ∧
        (MLEngine.analyze_trends []).direction = "flat" ∧
        (MLEngine.analyze_trends []).details = some []) ∧
      (∀ (dist : DistFn) (lga : Lga),
        (Dashboard.calculate_dynamic_lga_risk dist lga [] []).2 =
          Dashboard.geo_adjust lga.name) := by
  refine ⟨fun _ _ _ => rfl, ⟨rfl, rfl, rfl⟩, fun dist lga => ?_⟩
  rw [Dashboard.snd_calc]
  have hraw : Dashboard.raw_score dist lga [] [] = Dashboard.geo_adjust lga.name := by
    rw [Dashboard.raw_score_eq]
    simp [Dashboard.nearby_fires]
  rw [hraw]
  exact min_eq_left (Dashboard.geo_adjust_le_one lga.name)

lemma Dashboard.nearby_fires_append (dist : DistFn) (lga : Lga) (hs l : List Hotspot) :
    Dashboard.nearby_fires dist lga hs ≤ Dashboard.nearby_fires dist lga (hs ++ l) := by
  simp only [Dashboard.nearby_fires, List.countP_append]
  exact Nat.le_add_right _ _

lemma ite_bonus_mono {n m : ℕ} (h : n ≤ m) :
    (if 3 ≤ n then (1:ℚ)/5 else 0) ≤ (if 3 ≤ m then (1:ℚ)/5 else 0) := by
  split_ifs with h1 h2
  · exact le_refl _
  · exact absurd (le_trans h1 h) h2
  · norm_num
  · exact le_refl _

/-- Claim C6: the dashboard score is monotone: appending a hotspot never
decreases it; appending a report that mentions the region never decreases it;
and raising the severity of a mentioning report (low or medium to high, or high
to critical) never decreases it. -/
theorem c6_score_monotone :
    (∀ (dist : DistFn) (lga : Lga) (hs : List Hotspot) (rs : List Report) (h : Hotspot),
        (Dashboard.calculate_dynamic_lga_risk dist lga hs rs).2 ≤
          (Dashboard.calculate_dynamic_lga_risk dist lga (hs ++ [h]) rs).2) ∧
      (∀ (dist : DistFn) (lga : Lga) (hs : List Hotspot) (rs : List Report) (r : Report),
        Dashboard.mentions lga r = true →
          (Dashboard.calculate_dynamic_lga_risk dist lga hs rs).2 ≤
            (Dashboard.calculate_dynamic_lga_risk dist lga hs (rs ++ [r])).2) ∧
      (∀ (dist : DistFn) (lga : Lga) (hs : List Hotspot) (pre post : List Report)
          (r : Report) (s : String),
        (((r.severity = some "low" ∨ r.severity = some "medium") ∧ s = "high") ∨
            (r.severity = some "high" ∧ s = "critical")) →
        Dashboard.mentions lga r = true →
          (Dashboard.calculate_dynamic_lga_risk dist lga hs (pre ++ r :: post)).2 ≤
            (Dashboard.calculate_dynamic_lga_risk dist lga hs
              (pre ++ { r with severity := some s } :: post)).2) := by
  refine ⟨fun dist lga hs rs h => ?_, fun dist lga hs rs r _hm => ?_,
    fun dist lga hs pre post r s hraise hm => ?_⟩
  · rw [Dashboard.snd_calc, Dashboard.snd_calc]
    refine min_le_min ?_ (le_refl 1)
    rw [Dashboard.raw_score_eq, Dashboard.raw_score_eq]
    have hsum : ((hs ++ [h]).map (Dashboard.fire_contrib dist lga)).sum =
        (hs.map (Dashboard.fire_contrib dist lga)).sum + Dashboard.fire_contrib dist lga h := by
      simp
    have hb := ite_bonus_mono (Dashboard.nearby_fires_append dist lga hs [h])
    have hf := Dashboard.fire_contrib_nonneg dist lga h
    linarith
  · rw [Dashboard.snd_calc, Dashboard.snd_calc]
    refine min_le_min ?_ (le_refl 1)
    rw [Dashboard.raw_score_eq, Dashboard.raw_score_eq]
    have hsum : ((rs ++ [r]).map (Dashboard.report_contrib lga)).sum =
        (rs.map (Dashboard.report_contrib lga)).sum + Dashboard.report_contrib lga r := by
      simp
    have hr := Dashboard.report_contrib_nonneg lga r
    linarith
  · rw [Dashboard.snd_calc, Dashboard.snd_calc]
    refine min_le_min ?_ (le_refl 1)
    rw [Dashboard.raw_score_eq, Dashboard.raw_score_eq]
    have hsplit : ∀ x : Report,
        ((pre ++ x :: post).map (Dashboard.report_contrib lga)).sum =
          (pre.map (Dashboard.report_contrib lga)).sum + Dashboard.report_contrib lga x +
            (post.map (Dashboard.report_contrib lga)).sum := by
      intro x
      simp [List.sum_append]
      ring
    rw [hsplit, hsplit]
    have hmeq : Dashboard.mentions lga { r with severity := some s } =
        Dashboard.mentions lga r := rfl
    have hcon : Dashboard.report_contrib lga r ≤
        Dashboard.report_contrib lga { r with severity := some s } := by
      simp only [Dashboard.report_contrib, hmeq, hm, if_true]
      rcases hraise with ⟨hlm | hlm, rfl⟩ | ⟨hsev, rfl⟩
      · rw [hlm, show Dashboard.sev_bonus (some "low") = 1/20 from rfl,
            show Dashboard.sev_bonus (some "high") = 1/10 from rfl]
        norm_num
      · rw [hlm, show Dashboard.sev_bonus (some "medium") = 1/20 from rfl,
            show Dashboard.sev_bonus (some "high") = 1/10 from rfl]
        norm_num
      · rw [hsev, show Dashboard.sev_bonus (some "high") = 1/10 from rfl,
            show Dashboard.sev_bonus (some "critical") = 1/5 from rfl]
        norm_num
    linarith

/-- Witness for C6 at concrete inputs: one hotspot appended, one Testville report
appended, and the severity of the Testville report raised from low to high. -/
theorem c6_score_monotone_witness :
    ((Dashboard.calculate_dynamic_lga_risk zeroDist originLga [] []).2 ≤
        (Dashboard.calculate_dynamic_lga_risk zeroDist originLga ([] ++ [h00]) []).2) ∧
      ((Dashboard.calculate_dynamic_lga_risk zeroDist originLga [] []).2 ≤
        (Dashboard.calculate_dynamic_lga_risk zeroDist originLga []
          ([] ++ [reportLowTestville])).2) ∧
      ((Dashboard.calculate_dynamic_lga_risk zeroDist originLga []
          ([] ++ reportLowTestville :: [])).2 ≤
        (Dashboard.calculate_dynamic_lga_risk zeroDist originLga []
          ([] ++ { reportLowTestville with severity := some "high" } :: [])).2) :=
  ⟨c6_score_monotone.1 zeroDist originLga [] [] h00,
   c6_score_monotone.2.1 zeroDist originLga [] [] reportLowTestville (by decide),
   c6_score_monotone.2.2 zeroDist originLga [] [] [] reportLowTestville "high"
     (Or.inl ⟨Or.inl rfl, rfl⟩) (by decide)⟩

lemma greedyGo_join_perm (p : α → α → Bool) :
    ∀ (fuel : ℕ) (l : List α), l.length ≤ fuel → List.Perm (greedyGo p fuel l).flatten l := by
  intro fuel
  induction fuel with
  | zero =>
    intro l hl
    have hnil : l = [] := List.eq_nil_of_length_eq_zero (Nat.le_zero.mp hl)
    subst hnil
    simp [greedyGo]
  | succ fuel ih =>
    intro l hl
    cases l with
    | nil => simp [greedyGo]
    | cons h rest =>
      simp only [greedyGo, List.flatten_cons, List.cons_append]
      refine List.Perm.cons h ?_
      have hrest : rest.length ≤ fuel := by
        have := hl
        simp only [List.length_cons] at this
        exact Nat.le_of_succ_le_succ this
      have hfar : (rest.filter (fun g => !(p h g))).length ≤ fuel :=
        le_trans (List.length_filter_le _ _) hrest
      exact List.Perm.trans (List.Perm.append_left _ (ih _ hfar))
        (List.filter_append_perm _ rest)

/-- Claim C2 counterexample: _detect_spatial_clusters drops a point that is far
from all others — on a one-point input it returns no clusters at all, so the
point appears in the member list of zero returned clusters, not exactly one. -/
theorem c2_counterexample :
    MLEngine.detect_spatial_clusters zeroDist [h00] 15 = [] ∧ [h00] ≠ [] :=
  ⟨rfl, by decide⟩

/-- Claim C2 (amended): _cluster_fires returns a genuine partition — the
concatenation of its clusters is a permutation of the input, so every point
appears exactly once; _detect_spatial_clusters runs the same greedy pass but only
reports groups of size at least 2, so every reported cluster has size ≥ 2 and
isolated points appear in no returned cluster. -/
theorem c2_cluster_partition :
    (∀ (distF : Hotspot → Hotspot → ℚ) (fires : List Hotspot) (radius_km : ℚ),
        List.Perm (SecurityEngine.cluster_fires distF fires radius_km).flatten fires) ∧
      (∀ (dist : DistFn) (hotspots : List Hotspot) (t : ℚ) (c : MLEngine.ClusterInfo),
        c ∈ MLEngine.detect_spatial_clusters dist hotspots t → 2 ≤ c.size) := by
  constructor
  · intro distF fires radius_km
    exact greedyGo_join_perm _ fires.length fires (le_refl _)
  · intro dist hotspots t c hc
    rcases List.mem_filterMap.mp hc with ⟨a, -, ha⟩
    by_cases h2 : 2 ≤ a.length
    · rw [if_pos h2] at ha
      cases ha
      exact h2
    · rw [if_neg h2] at ha
      cases ha

/-- Witness for C2 at a concrete input: a two-point group is reported with
size 2 by _detect_spatial_clusters. -/
theorem c2_cluster_partition_witness : 2 ≤ (MLEngine.ClusterInfo.mk 2 12 4).size :=
  c2_cluster_partition.2 zeroDist [h00, h00] 15 ⟨2, 12, 4⟩
    (by
      rw [show MLEngine.detect_spatial_clusters zeroDist [h00, h00] 15 =
            [⟨2, 12, 4⟩] by with_unfolding_all rfl]
      exact List.mem_singleton.mpr rfl)

/-- Claim C3 counterexample: Shanga is in the dashboard southern set (so
_calculate_dynamic_lga_risk grants it the +0.25 corridor adjustment) but not in
the predictor southern_corridor set (corridor_multiplier stays 1.0), so the two
components do not consult the same set. -/
theorem c3_counterexample :
    Dashboard.southern.contains "Shanga" = true ∧
      MLEngine.southern_corridor.contains "Shanga" = false ∧
      (Dashboard.calculate_dynamic_lga_risk zeroDist shangaLga [] []).2 = 1/4 ∧
      MLEngine.corridor_multiplier "Shanga" = 1 := by
  refine ⟨rfl, rfl, ?_, ?_⟩
  · with_unfolding_all rfl
  · with_unfolding_all rfl

/-- Claim C3 (amended): the predictor corridor set is a subset of the dashboard
southern set, so every region that receives the 1.3 corridor multiplier in
predict_threats also receives the +0.25 corridor score adjustment — but not
conversely (Shanga, Koko/Besse and Yauri get the bonus without the multiplier). -/
theorem c3_corridor_subset (name : String)
    (h : MLEngine.corridor_multiplier name = 13/10) :
    Dashboard.geo_adjust name = 1/4 := by
  by_cases hc : MLEngine.southern_corridor.contains name = true
  · have hmem : name ∈ MLEngine.southern_corridor := by
      simpa using hc
    simp only [MLEngine.southern_corridor, List.mem_cons, List.mem_singleton] at hmem
    rcases hmem with rfl | rfl | rfl | rfl | h0
    · with_unfolding_all rfl
    · with_unfolding_all rfl
    · with_unfolding_all rfl
    · with_unfolding_all rfl
    · exact absurd h0 (List.not_mem_nil name)
  · rw [MLEngine.corridor_multiplier, if_neg hc] at h
    exact absurd h (by norm_num)

/-- Witness for C3 at a concrete input: Zuru carries the 1.3 multiplier and
indeed gets the +0.25 adjustment. -/
theorem c3_corridor_subset_witness : Dashboard.geo_adjust "Zuru" = 1/4 :=
  c3_corridor_subset "Zuru" (by with_unfolding_all rfl)

lemma MLEngine.mem_cluster_details {d : MLEngine.AnomalyDetail}
    {cs : List MLEngine.ClusterInfo} (h : d ∈ MLEngine.cluster_details cs) :
    d.type = "spatial_cluster" := by
  rcases List.mem_map.mp h with ⟨c, -, rfl⟩
  rfl

lemma MLEngine.mem_bright_details {d : MLEngine.AnomalyDetail} {l : List ℚ}
    (h : d ∈ MLEngine.bright_details l) : d.type = "brightness_anomaly" := by
  simp only [MLEngine.bright_details] at h
  split_ifs at h
  · exact absurd h (List.not_mem_nil d)
  · rcases List.mem_singleton.mp h with rfl
    rfl

/-- Claim C4: on exactly 11 hotspots with baseline mean 5.0 and std 3.0, the
z-score is exactly 2.0 and detect_anomalies emits no frequency-spike anomaly,
because the spike condition requires z strictly greater than 2.0. -/
theorem c4_z_boundary (dist : DistFn) (hotspots : List Hotspot)
    (hlen : hotspots.length = 11) :
    (MLEngine.detect_anomalies dist hotspots 5 3).z_score = some 2 ∧
      ∀ d ∈ (MLEngine.detect_anomalies dist hotspots 5 3).details,
        d.type ≠ "frequency_spike" := by
  have hne : hotspots.isEmpty = false := by
    cases hotspots with
    | nil => simp at hlen
    | cons a l => rfl
  have hz : MLEngine.z_of hotspots.length 5 3 = 2 := by
    rw [hlen]
    rw [MLEngine.z_of, show max (3:ℚ) (1/10) = 3 from by norm_num]
    norm_num
  have hfreq : MLEngine.freq_details (MLEngine.z_of hotspots.length 5 3) = [] := by
    rw [hz, MLEngine.freq_details, if_neg (lt_irrefl 2)]
  constructor
  · simp only [MLEngine.detect_anomalies, hne, Bool.false_eq_true, if_false]
    rw [hz, show pythonRound 2 2 = 2 from by with_unfolding_all rfl]
  · intro d hd
    simp only [MLEngine.detect_anomalies, hne, Bool.false_eq_true, if_false] at hd
    rw [hfreq, List.nil_append] at hd
    rcases List.mem_append.mp hd with hmem | hmem
    · rw [MLEngine.mem_cluster_details hmem]
      decide
    · rw [MLEngine.mem_bright_details hmem]
      decide

/-- Witness for C4 at a concrete input: eleven identical hotspots. -/
theorem c4_z_boundary_witness :
    (MLEngine.detect_anomalies zeroDist hs11 5 3).z_score = some 2 ∧
      ∀ d ∈ (MLEngine.detect_anomalies zeroDist hs11 5 3).details,
        d.type ≠ "frequency_spike" :=
  c4_z_boundary zeroDist hs11 rfl

/-- Claim C5: two regions identical in base risk, fire proximity, intel score
and border membership, where exactly the first is in the southern-corridor set,
have pre-clamp composite scores in the exact ratio 1.3: the flat +0.2 baseline
term is inside the parenthesised sum, which is multiplied by the border and
corridor multipliers before the clamp. -/
theorem c5_corridor_ratio (dist : DistFn) (intel_reports : List Report)
    (hotspots : List Hotspot) (l1 l2 : Lga)
    (hbase : MLEngine.base_risk l1 = MLEngine.base_risk l2)
    (hfire : MLEngine.fire_proximity_score dist l1 hotspots =
      MLEngine.fire_proximity_score dist l2 hotspots)
    (hintel : MLEngine.intel_score l1 intel_reports = MLEngine.intel_score l2 intel_reports)
    (hborder : MLEngine.border_multiplier l1.name = MLEngine.border_multiplier l2.name)
    (hc1 : MLEngine.southern_corridor.contains l1.name = true)
    (hc2 : MLEngine.southern_corridor.contains l2.name = false) :
    MLEngine.composite_raw dist l1 intel_reports hotspots =
      (13/10) * MLEngine.composite_raw dist l2 intel_reports hotspots := by
  simp only [MLEngine.composite_raw, MLEngine.corridor_multiplier, hbase, hfire, hintel,
    hborder, hc1, hc2, if_true, Bool.false_eq_true, if_false]
  ring

/-- Witness for C5 at concrete inputs: the Zuru-named record (corridor) against
the Jega-named record (non-corridor) with identical coordinates and risk. -/
theorem c5_corridor_ratio_witness :
    MLEngine.composite_raw zeroDist zuruTest [] [] =
      (13/10) * MLEngine.composite_raw zeroDist jegaTest [] [] :=
  c5_corridor_ratio zeroDist [] [] zuruTest jegaTest rfl rfl rfl
    (by with_unfolding_all rfl) (by with_unfolding_all rfl) (by with_unfolding_all rfl)

/-- Claim C7 counterexample: predict_threats and _classify_fire_cluster store a
datetime.now() reading in their returned timestamp field, so two calls with
identical inputs at different wall-clock instants return different outputs. -/
theorem c7_counterexample :
    MLEngine.predict_threats zeroDist [] [] [] "2025-01-01T00:00:00" ≠
        MLEngine.predict_threats zeroDist [] [] [] "2025-01-01T00:00:05" ∧
      SecurityEngine.classify_fire_cluster [h00] 350 1 0 none "2025-01-01T00:00:00" ≠
        SecurityEngine.classify_fire_cluster [h00] 350 1 0 none "2025-01-01T00:00:05" := by
  constructor
  · intro h
    have h2 := congrArg MLEngine.PredictionResult.timestamp h
    rw [show (MLEngine.predict_threats zeroDist [] [] []
          "2025-01-01T00:00:00").timestamp = "2025-01-01T00:00:00" from rfl,
        show (MLEngine.predict_threats zeroDist [] [] []
          "2025-01-01T00:00:05").timestamp = "2025-01-01T00:00:05" from rfl] at h2
    exact absurd h2 (by decide)
  · intro h
    have h2 := congrArg (fun o => Option.map
      (fun i => SecurityEngine.SecurityIndicator.timestamp i) o) h
    dsimp only at h2
    rw [show Option.map (fun i => SecurityEngine.SecurityIndicator.timestamp i)
          (SecurityEngine.classify_fire_cluster [h00] 350 1 0 none "2025-01-01T00:00:00") =
          some "2025-01-01T00:00:00" from rfl,
        show Option.map (fun i => SecurityEngine.SecurityIndicator.timestamp i)
          (SecurityEngine.classify_fire_cluster [h00] 350 1 0 none "2025-01-01T00:00:05") =
          some "2025-01-01T00:00:05" from rfl] at h2
    exact absurd h2 (by decide)

/-- Claim C7 (amended): detect_anomalies, analyze_trends and
_calculate_dynamic_lga_risk read no clock (they take no now parameter in this
embedding) and are pure functions of their arguments; predict_threats and
_classify_fire_cluster are pure in every output field except the timestamp
field, which records the wall-clock reading. -/
theorem c7_pure_modulo_timestamp :
    (∀ (dist : DistFn) (lga_data : List Lga) (intel_reports : List Report)
        (hotspots : List Hotspot) (t1 t2 : String),
        (MLEngine.predict_threats dist lga_data intel_reports hotspots t1).strip =
          (MLEngine.predict_threats dist lga_data intel_reports hotspots t2).strip) ∧
      (∀ (cluster : List Hotspot) (avg_brightness : ℚ) (fire_count : ℕ) (avg_frp : ℚ)
          (lga : Option String) (t1 t2 : String),
        (SecurityEngine.classify_fire_cluster cluster avg_brightness fire_count
              avg_frp lga t1).map SecurityEngine.SecurityIndicator.strip =
          (SecurityEngine.classify_fire_cluster cluster avg_brightness fire_count
              avg_frp lga t2).map SecurityEngine.SecurityIndicator.strip) :=
  ⟨fun _ _ _ _ _ _ => rfl, fun _ _ _ _ _ _ _ => rfl⟩

/-- Claim C9 counterexample: a record with missing latitude and longitude is not
skipped by _calculate_dynamic_lga_risk — the accessors substitute the default
coordinate 0, so for a region centred at (0, 0) the malformed record contributes
the full 0.15 proximity bonus instead of nothing. -/
theorem c9_counterexample :
    (Dashboard.calculate_dynamic_lga_risk taxiDist originLga [hMissing] []).2 = 3/20 ∧
      (Dashboard.calculate_dynamic_lga_risk taxiDist originLga [] []).2 = 0 ∧
      (Dashboard.calculate_dynamic_lga_risk taxiDist originLga [hMissing] []).2 =
        (Dashboard.calculate_dynamic_lga_risk taxiDist originLga
          [⟨some 0, some 0, none, none⟩] []).2 := by
  refine ⟨?_, ?_, rfl⟩
  · with_unfolding_all rfl
  · with_unfolding_all rfl

/-- Claim C9 (amended): a point record with missing coordinates is processed, not
skipped: every scoring operation treats it exactly as a record located at the
default coordinates (0, 0), and no count of malformed records is kept anywhere. -/
theorem c9_default_substitution (dist : DistFn) (lga : Lga) (hs : List Hotspot)
    (rs : List Report) (b f : Option ℚ) :
    Dashboard.calculate_dynamic_lga_risk dist lga (⟨none, none, b, f⟩ :: hs) rs =
        Dashboard.calculate_dynamic_lga_risk dist lga (⟨some 0, some 0, b, f⟩ :: hs) rs ∧
      MLEngine.fire_proximity_score dist lga (⟨none, none, b, f⟩ :: hs) =
        MLEngine.fire_proximity_score dist lga (⟨some 0, some 0, b, f⟩ :: hs) ∧
      MLEngine.detect_anomalies dist (⟨none, none, b, f⟩ :: hs) 5 3 =
        MLEngine.detect_anomalies dist (⟨some 0, some 0, b, f⟩ :: hs) 5 3 :=
  ⟨rfl, rfl, rfl⟩

/-- Claim C10: _classify_fire_cluster never returns null on a nonempty cluster;
when none of the three signature rules matches it emits the generic low-confidence
unknown_fire indicator. -/
theorem c10_always_indicator (cluster : List Hotspot) (avg_brightness : ℚ)
    (fire_count : ℕ) (avg_frp : ℚ) (lga : Option String) (now : String)
    (hne : cluster ≠ []) :
    ((SecurityEngine.classify_fire_cluster cluster avg_brightness fire_count
        avg_frp lga now).isSome = true) ∧
      (¬(3 ≤ fire_count ∧ 400 ≤ avg_brightness ∧ avg_brightness ≤ 600) →
        ¬(500 < avg_brightness ∧ fire_count ≤ 3) →
        ¬(2 ≤ fire_count ∧ 300 ≤ avg_brightness ∧ avg_brightness < 400) →
        ∃ ind, SecurityEngine.classify_fire_cluster cluster avg_brightness fire_count
            avg_frp lga now = some ind ∧
          ind.indicator_type = "unknown_fire" ∧ ind.confidence = "low") := by
  refine ⟨rfl, fun h1 h2 h3 => ?_⟩
  simp only [SecurityEngine.classify_fire_cluster, if_neg h1, if_neg h2, if_neg h3]
  exact ⟨_, rfl, rfl, rfl⟩

/-- Witness for C10 at a concrete input: one hotspot of average brightness 200
matches no signature rule and yields the unknown_fire indicator. -/
theorem c10_always_indicator_witness :
    ((SecurityEngine.classify_fire_cluster [h00] 200 1 0 none "t0").isSome = true) ∧
      (¬(3 ≤ 1 ∧ (400:ℚ) ≤ 200 ∧ (200:ℚ) ≤ 600) →
        ¬((500:ℚ) < 200 ∧ 1 ≤ 3) →
        ¬(2 ≤ 1 ∧ (300:ℚ) ≤ 200 ∧ (200:ℚ) < 400) →
        ∃ ind, SecurityEngine.classify_fire_cluster [h00] 200 1 0 none "t0" = some ind ∧
          ind.indicator_type = "unknown_fire" ∧ ind.confidence = "low") :=
  c10_always_indicator [h00] 200 1 0 none "t0" (by decide)
